import Mathlib

/-!
# Verification of the `stratcomjobsapp` client API wrapper

A shallow embedding of `src/services/api.ts`, the single source file of the
repository: a browser-side HTTP wrapper (class `MongoDBAPI`) over a REST
backend, plus typed convenience methods (login, job CRUD, claim, status,
file submit/download, user admin).

Modelling choices, all driven by what the source observes:

* JavaScript values that flow through the wrapper (parsed JSON bodies,
  property accesses, truthiness tests, string coercions) are modelled by the
  inductive `Json`, which includes an `undefined` constructor for the JavaScript
  `undefined` produced by a missing property.  Property access on `null`
  actually throws a TypeError in JavaScript; we model it as `undefined`, which
  only matters for the error-message fallback path, where both behaviours
  yield a non-empty message.
* `localStorage` is an association list from keys to strings.
* `fetch` is an environment `env : Request → Response`: each operation of
  the wrapper issues at most one fetch, and the environment answers it.
  A `Response` carries what the code inspects: `ok`, `status`, and the
  outcome of `response.json()` (a parse failure or a `Json` value).
* Each operation returns an `ApiResult`: the settled promise
  (`Except JsError α`), the final `localStorage` contents, and the trace of
  issued HTTP requests.
* `JSON.stringify` of a request payload is kept structural: the body of a
  request records the `Json` value being serialised (`RequestBody.jsonString`),
  since stringification is injective on the shapes the wrapper builds.
* Object spread `{...defaultHeaders, ...options.headers}` is modelled by
  `mergeHeaders`, which gives the override the last position rather than the
  original one; no claim depends on header order, only on presence.
* The DOM side of `downloadPDF` (blob URL, anchor click) is outside browser
  storage and outside every claim; the model keeps its HTTP request and its
  error behaviour.
-/

/-- A JavaScript value as observed by the wrapper: the result of parsing a
JSON body, plus `undefined` for the `undefined` arising from a missing
property. -/
inductive Json where
  | null : Json
  | undefined : Json
  | bool (b : Bool) : Json
  | num (n : Int) : Json
  | str (s : String) : Json
  | arr (elems : List Json) : Json
  | obj (fields : List (String × Json)) : Json
deriving Repr

/-- Property access `v[k]`: the first field with the given name, `undefined` when
the field is missing or the value is not an object. -/
def Json.getField (v : Json) (k : String) : Json :=
  match v with
  | .obj fields =>
    match fields.find? (fun p => p.1 == k) with
    | some p => p.2
    | none => .undefined
  | _ => .undefined

/-- JavaScript truthiness of a `Json` value. -/
def Json.truthy : Json → Bool
  | .null => false
  | .undefined => false
  | .bool b => b
  | .num n => n != 0
  | .str s => s != ""
  | .arr _ => true
  | .obj _ => true

mutual

/-- The JavaScript string coercion of a value, as performed by
`new Error(v)` and by a template literal.  Arrays coerce via
`Array.prototype.join`, objects to the usual object tag. -/
def Json.jsString : Json → String
  | .null => "null"
  | .undefined => "undefined"
  | .bool b => if b then "true" else "false"
  | .num n => toString n
  | .str s => s
  | .arr xs => Json.jsStringList xs
  | .obj _ => "[object Object]"

/-- Comma-joined coercion of the elements of an array. -/
def Json.jsStringList : List Json → String
  | [] => ""
  | [x] => Json.jsStringElem x
  | x :: xs => Json.jsStringElem x ++ "," ++ Json.jsStringList xs

/-- An element inside `Array.prototype.join`: `null` and `undefined` become
the empty string, everything else coerces as usual. -/
def Json.jsStringElem : Json → String
  | .null => ""
  | .undefined => ""
  | .bool b => if b then "true" else "false"
  | .num n => toString n
  | .str s => s
  | .arr xs => Json.jsStringList xs
  | .obj _ => "[object Object]"

end

/-- Browser `localStorage`: an association list from keys to stored strings. -/
abbrev Storage : Type := List (String × String)

namespace localStorage

/-- `localStorage.getItem(k)`: the stored value, or `none` for JavaScript
`null`. -/
def getItem (s : Storage) (k : String) : Option String :=
  (List.find? (fun p => p.1 == k) s).map (fun p => p.2)

/-- `localStorage.setItem(k, v)`: replace the entry in place, or append a new
one. -/
def setItem (s : Storage) (k v : String) : Storage :=
  if List.any s (fun p => p.1 == k) then
    List.map (fun p => if p.1 == k then (k, v) else p) s
  else
    s ++ [(k, v)]

/-- `localStorage.removeItem(k)`. -/
def removeItem (s : Storage) (k : String) : Storage :=
  List.filter (fun p => p.1 != k) s

end localStorage

/-- The body attached to an outgoing request. -/
inductive RequestBody where
  | none : RequestBody
  | jsonString (value : Json) : RequestBody
  | formData (entries : List (String × String)) : RequestBody
deriving Repr

/-- One outgoing HTTP request as handed to `fetch`. -/
structure Request where
  url : String
  method : String
  headers : List (String × String)
  body : RequestBody
deriving Repr

/-- What the wrapper observes of a `fetch` response: the `ok` flag, the
status code, and the outcome of `response.json()` (`Except.error` when the
body is not valid JSON). -/
structure Response where
  ok : Bool
  status : Nat
  body : Except Unit Json

/-- How a wrapper promise can reject: a thrown `Error` with a message, or
the rejection of `response.json()` on a success response whose body does not
parse. -/
inductive JsError where
  | thrown (message : String) : JsError
  | jsonParseError : JsError
deriving Repr

/-- The observable outcome of one wrapper operation: the settled promise,
the final browser storage, and the trace of HTTP requests issued. -/
structure ApiResult (α : Type) where
  result : Except JsError α
  storage : Storage
  trace : List Request

/-- The options record passed to the generic request helper: TypeScript
`RequestInit` restricted to the fields the wrapper reads. -/
structure RequestOptions where
  method : Option String := Option.none
  body : RequestBody := RequestBody.none
  headers : List (String × String) := []

/-- Object spread `{...base, ...extra}` restricted to what header lookup
observes: keys of `extra` override those of `base`. -/
def mergeHeaders (base extra : List (String × String)) : List (String × String) :=
  List.filter (fun p => List.all extra (fun q => q.1 != p.1)) base ++ extra

namespace MongoDBAPI

/-- The default headers of the generic helper: JSON content type, accept,
and the bearer token under the source's truthiness guard `if (token)`:
`getItem` yielding JavaScript `null` or the (falsy) empty string attaches
no Authorization header. -/
def jsonHeaders (storage : Storage) : List (String × String) :=
  let base := [("Content-Type", "application/json"), ("Accept", "application/json")]
  match localStorage.getItem storage "authToken" with
  | some token =>
    if token != "" then base ++ [("Authorization", "Bearer " ++ token)] else base
  | none => base

/-- The request built by the generic helper from the base URL, the endpoint,
the options and the stored token. -/
def builtRequest (baseURL endpoint : String) (opts : RequestOptions)
    (storage : Storage) : Request :=
  { url := baseURL ++ endpoint
    method := opts.method.getD "GET"
    headers := mergeHeaders (jsonHeaders storage) opts.headers
    body := opts.body }

/-- The JSON error payload decoded on a non-success response:
`response.json().catch(() => ({ message: Unknown error }))`. -/
def errorPayload : Except Unit Json → Json
  | .ok j => j
  | .error _ => Json.obj [("message", Json.str "Unknown error")]

/-- The message of the thrown error on a non-success response:
`new Error(error.message || API request failed)`, with JavaScript
truthiness for the disjunction and string coercion by the `Error`
constructor. -/
def errorMessageOf (body : Except Unit Json) : String :=
  let m := (errorPayload body).getField "message"
  if m.truthy then m.jsString else "API request failed"

/-- The generic request helper `MongoDBAPI.request`: build the request,
send it, resolve the decoded JSON body on success, throw a decoded or
fallback error on a non-success response. -/
def request (baseURL endpoint : String) (opts : RequestOptions)
    (storage : Storage) (env : Request → Response) : ApiResult Json :=
  let req := builtRequest baseURL endpoint opts storage
  let response := env req
  { result :=
      if response.ok then
        match response.body with
        | .ok j => .ok j
        | .error _ => .error .jsonParseError
      else .error (.thrown (errorMessageOf response.body))
    storage := storage
    trace := [req] }

end MongoDBAPI

/-- The payload of `registerUser` and `createUser` (TypeScript
`CreateUserData`): `role` is optional, and `JSON.stringify` drops the field
entirely when it is absent. -/
structure CreateUserData where
  name : String
  email : String
  password : String
  role : Option String := Option.none

/-- `JSON.stringify` of a `CreateUserData` value, structurally. -/
def CreateUserData.toJson (d : CreateUserData) : Json :=
  Json.obj ([("name", Json.str d.name), ("email", Json.str d.email),
             ("password", Json.str d.password)] ++
    match d.role with
    | some r => [("role", Json.str r)]
    | none => [])

/-- The payload of `createJob` (TypeScript `CreateJobData`). -/
structure CreateJobData where
  title : String
  description : String
  scope : String
  fee : Int
  deadline : String
  priority : String
  category : String

/-- `JSON.stringify` of a `CreateJobData` value. -/
def CreateJobData.toJson (d : CreateJobData) : Json :=
  Json.obj [("title", Json.str d.title), ("description", Json.str d.description),
            ("scope", Json.str d.scope), ("fee", Json.num d.fee),
            ("deadline", Json.str d.deadline), ("priority", Json.str d.priority),
            ("category", Json.str d.category)]

/-- The payload of `updateJob` (TypeScript `UpdateJobData`, a partial
`CreateJobData`): absent fields are dropped by `JSON.stringify`. -/
structure UpdateJobData where
  title : Option String := Option.none
  description : Option String := Option.none
  scope : Option String := Option.none
  fee : Option Int := Option.none
  deadline : Option String := Option.none
  priority : Option String := Option.none
  category : Option String := Option.none

/-- An optional field of a stringified partial payload. -/
def optField (k : String) : Option Json → List (String × Json)
  | some v => [(k, v)]
  | none => []

/-- `JSON.stringify` of an `UpdateJobData` value. -/
def UpdateJobData.toJson (d : UpdateJobData) : Json :=
  Json.obj (optField "title" (d.title.map Json.str) ++
    optField "description" (d.description.map Json.str) ++
    optField "scope" (d.scope.map Json.str) ++
    optField "fee" (d.fee.map Json.num) ++
    optField "deadline" (d.deadline.map Json.str) ++
    optField "priority" (d.priority.map Json.str) ++
    optField "category" (d.category.map Json.str))

/-- The payload of `updateUser` (TypeScript `UpdateUserData`, a partial
`CreateUserData`). -/
structure UpdateUserData where
  name : Option String := Option.none
  email : Option String := Option.none
  password : Option String := Option.none
  role : Option String := Option.none

/-- `JSON.stringify` of an `UpdateUserData` value. -/
def UpdateUserData.toJson (d : UpdateUserData) : Json :=
  Json.obj (optField "name" (d.name.map Json.str) ++
    optField "email" (d.email.map Json.str) ++
    optField "password" (d.password.map Json.str) ++
    optField "role" (d.role.map Json.str))

/-- The optional filters argument of `getJobs`. -/
structure JobFilters where
  status : Option String := Option.none
  category : Option String := Option.none
  priority : Option String := Option.none
  search : Option String := Option.none

/-- One hexadecimal digit, upper case. -/
def hexDigit (n : Nat) : Char :=
  if n < 10 then Char.ofNat (48 + n) else Char.ofNat (55 + n)

/-- A percent-encoded byte, `%XX`. -/
def percentByte (b : Nat) : String :=
  String.mk ['%', hexDigit (b / 16), hexDigit (b % 16)]

/-- One character under `application/x-www-form-urlencoded` serialisation
(the encoding used by `URLSearchParams.toString`): alphanumerics and
`*-._` stay, space becomes a plus, every other character is
percent-encoded per UTF-8 byte. -/
def formEncodeChar (c : Char) : String :=
  if c = ' ' then "+"
  else if c.isAlphanum || c = '*' || c = '-' || c = '.' || c = '_' then
    String.mk [c]
  else
    String.join (((String.mk [c]).toUTF8.toList).map (fun b => percentByte b.toNat))

/-- `application/x-www-form-urlencoded` serialisation of a string. -/
def formUrlEncode (s : String) : String :=
  String.join (s.toList.map formEncodeChar)

/-- `URLSearchParams.toString` over the appended key-value pairs. -/
def serializeParams (ps : List (String × String)) : String :=
  String.intercalate "&" (ps.map (fun p => formUrlEncode p.1 ++ "=" ++ formUrlEncode p.2))

/-- One conditional `params.append(k, v)` of `getJobs`: skipped when the
filter field is absent or the empty string (JavaScript truthiness of the
guard `filters?.status` and friends). -/
def appendIf (k : String) : Option String → List (String × String)
  | some v => if v = "" then [] else [(k, v)]
  | none => []

namespace MongoDBAPI

/-- The search parameters accumulated by `getJobs`. -/
def jobsParams (filters : Option JobFilters) : List (String × String) :=
  match filters with
  | none => []
  | some f =>
    appendIf "status" f.status ++ appendIf "category" f.category ++
      appendIf "priority" f.priority ++ appendIf "search" f.search

/-- The endpoint chosen by `getJobs`:
`params.toString() ? /jobs?params : /jobs`. -/
def jobsEndpoint (filters : Option JobFilters) : String :=
  let q := serializeParams (jobsParams filters)
  if q = "" then "/jobs" else "/jobs?" ++ q

/-- `login(email, password)`: POST the credentials, store the returned
token under `authToken`, and resolve a four-field user record rebuilt from
the response. -/
def login (baseURL email password : String) (storage : Storage)
    (env : Request → Response) : ApiResult Json :=
  let r := request baseURL "/users/login"
    { method := some "POST"
      body := RequestBody.jsonString
        (Json.obj [("email", Json.str email), ("password", Json.str password)]) }
    storage env
  match r.result with
  | .ok response =>
    { result := .ok (Json.obj [("id", response.getField "id"),
        ("name", response.getField "name"), ("email", response.getField "email"),
        ("role", response.getField "role")])
      storage := localStorage.setItem r.storage "authToken" (response.getField "token").jsString
      trace := r.trace }
  | .error e => { result := .error e, storage := r.storage, trace := r.trace }

/-- `logout()`: remove the stored token; no HTTP request, never rejects. -/
def logout (storage : Storage) : ApiResult Unit :=
  { result := .ok ()
    storage := localStorage.removeItem storage "authToken"
    trace := [] }

/-- `getCurrentUser()`: GET `/users/me`, resolving `null` on any failure. -/
def getCurrentUser (baseURL : String) (storage : Storage)
    (env : Request → Response) : ApiResult (Option Json) :=
  let r := request baseURL "/users/me" {} storage env
  match r.result with
  | .ok j => { result := .ok (some j), storage := r.storage, trace := r.trace }
  | .error _ => { result := .ok none, storage := r.storage, trace := r.trace }

/-- `registerUser(userData)`: POST to `/users/register`, store the returned
token, and resolve the rebuilt four-field user record. -/
def registerUser (baseURL : String) (userData : CreateUserData)
    (storage : Storage) (env : Request → Response) : ApiResult Json :=
  let r := request baseURL "/users/register"
    { method := some "POST", body := RequestBody.jsonString userData.toJson }
    storage env
  match r.result with
  | .ok response =>
    { result := .ok (Json.obj [("id", response.getField "id"),
        ("name", response.getField "name"), ("email", response.getField "email"),
        ("role", response.getField "role")])
      storage := localStorage.setItem r.storage "authToken" (response.getField "token").jsString
      trace := r.trace }
  | .error e => { result := .error e, storage := r.storage, trace := r.trace }

/-- `getJobs(filters?)`: GET `/jobs` with the serialised search params. -/
def getJobs (baseURL : String) (filters : Option JobFilters)
    (storage : Storage) (env : Request → Response) : ApiResult Json :=
  request baseURL (jobsEndpoint filters) {} storage env

/-- `getJob(id)`: GET `/jobs/:id`. -/
def getJob (baseURL id : String) (storage : Storage)
    (env : Request → Response) : ApiResult Json :=
  request baseURL ("/jobs/" ++ id) {} storage env

/-- `createJob(jobData)`: POST `/jobs`. -/
def createJob (baseURL : String) (jobData : CreateJobData)
    (storage : Storage) (env : Request → Response) : ApiResult Json :=
  request baseURL "/jobs"
    { method := some "POST", body := RequestBody.jsonString jobData.toJson }
    storage env

/-- `updateJob(id, jobData)`: PUT `/jobs/:id`. -/
def updateJob (baseURL id : String) (jobData : UpdateJobData)
    (storage : Storage) (env : Request → Response) : ApiResult Json :=
  request baseURL ("/jobs/" ++ id)
    { method := some "PUT", body := RequestBody.jsonString jobData.toJson }
    storage env

/-- `deleteJob(id)`: DELETE `/jobs/:id`, discarding the decoded body. -/
def deleteJob (baseURL id : String) (storage : Storage)
    (env : Request → Response) : ApiResult Unit :=
  let r := request baseURL ("/jobs/" ++ id) { method := some "DELETE" } storage env
  match r.result with
  | .ok _ => { result := .ok (), storage := r.storage, trace := r.trace }
  | .error e => { result := .error e, storage := r.storage, trace := r.trace }

/-- `claimJob(id)`: POST `/jobs/:id/claim`, discarding the decoded body. -/
def claimJob (baseURL id : String) (storage : Storage)
    (env : Request → Response) : ApiResult Unit :=
  let r := request baseURL ("/jobs/" ++ id ++ "/claim") { method := some "POST" } storage env
  match r.result with
  | .ok _ => { result := .ok (), storage := r.storage, trace := r.trace }
  | .error e => { result := .error e, storage := r.storage, trace := r.trace }

/-- `updateJobStatus(id, status)`: POST the status to `/jobs/:id/status`,
discarding the decoded body. -/
def updateJobStatus (baseURL id status : String) (storage : Storage)
    (env : Request → Response) : ApiResult Unit :=
  let r := request baseURL ("/jobs/" ++ id ++ "/status")
    { method := some "POST"
      body := RequestBody.jsonString (Json.obj [("status", Json.str status)]) }
    storage env
  match r.result with
  | .ok _ => { result := .ok (), storage := r.storage, trace := r.trace }
  | .error e => { result := .error e, storage := r.storage, trace := r.trace }

/-- The string interpolated into the Authorization template literal of
`submitPDF` and `downloadPDF`: a stored token verbatim, the string "null"
when `getItem` returns JavaScript `null`. -/
def tokenTemplate (t : Option String) : String :=
  match t with
  | some token => token
  | none => "null"

/-- The multipart request built by `submitPDF`: note the Authorization
header is attached unconditionally, interpolating the raw `getItem`
result. -/
def submitRequest (baseURL id file : String) (storage : Storage) : Request :=
  { url := baseURL ++ "/jobs/" ++ id ++ "/submit"
    method := "POST"
    headers := [("Authorization",
      "Bearer " ++ tokenTemplate (localStorage.getItem storage "authToken"))]
    body := RequestBody.formData [("submission", file)] }

/-- `submitPDF(id, file)`: a manual `fetch` with multipart form data and an
unconditional Authorization header, bypassing the generic helper but
repeating its error decoding. -/
def submitPDF (baseURL id file : String) (storage : Storage)
    (env : Request → Response) : ApiResult Json :=
  let req := submitRequest baseURL id file storage
  let response := env req
  { result :=
      if response.ok then
        match response.body with
        | .ok j => .ok j
        | .error _ => .error .jsonParseError
      else .error (.thrown (errorMessageOf response.body))
    storage := storage
    trace := [req] }

/-- The binary download request built by `downloadPDF`: like `submitRequest`,
the Authorization header is attached unconditionally. -/
def downloadRequest (baseURL id : String) (storage : Storage) : Request :=
  { url := baseURL ++ "/jobs/" ++ id ++ "/download"
    method := "GET"
    headers := [("Authorization",
      "Bearer " ++ tokenTemplate (localStorage.getItem storage "authToken"))]
    body := RequestBody.none }

/-- `downloadPDF(id)`: a manual GET with an unconditional Authorization
header; a fixed message on failure, a DOM-side save (not modelled: it
touches no browser storage) on success. -/
def downloadPDF (baseURL id : String) (storage : Storage)
    (env : Request → Response) : ApiResult Unit :=
  let req := downloadRequest baseURL id storage
  let response := env req
  { result :=
      if response.ok then .ok ()
      else .error (.thrown "Failed to download PDF")
    storage := storage
    trace := [req] }

/-- `getUsers()`: GET `/users`. -/
def getUsers (baseURL : String) (storage : Storage)
    (env : Request → Response) : ApiResult Json :=
  request baseURL "/users" {} storage env

/-- `createUser(userData)`: POST `/users/register`, resolving the decoded
response unchanged and leaving storage untouched. -/
def createUser (baseURL : String) (userData : CreateUserData)
    (storage : Storage) (env : Request → Response) : ApiResult Json :=
  request baseURL "/users/register"
    { method := some "POST", body := RequestBody.jsonString userData.toJson }
    storage env

/-- `updateUser(id, userData)`: PUT `/users/:id`. -/
def updateUser (baseURL id : String) (userData : UpdateUserData)
    (storage : Storage) (env : Request → Response) : ApiResult Json :=
  request baseURL ("/users/" ++ id)
    { method := some "PUT", body := RequestBody.jsonString userData.toJson }
    storage env

/-- `deleteUser(id)`: DELETE `/users/:id`, discarding the decoded body. -/
def deleteUser (baseURL id : String) (storage : Storage)
    (env : Request → Response) : ApiResult Unit :=
  let r := request baseURL ("/users/" ++ id) { method := some "DELETE" } storage env
  match r.result with
  | .ok _ => { result := .ok (), storage := r.storage, trace := r.trace }
  | .error e => { result := .error e, storage := r.storage, trace := r.trace }

end MongoDBAPI

section StorageLemmas

/-- Replacing the entry under a key makes it the first hit of a search for
that key. -/
theorem find?_set_self (t : Storage) (k v : String) :
    List.find? (fun p => p.1 == k) (List.map (fun p => if p.1 == k then (k, v) else p) t) =
      Option.map (fun _ => (k, v)) (List.find? (fun p => p.1 == k) t) := by
  induction t with
  | nil => rfl
  | cons p t ih =>
    simp only [List.map_cons]
    by_cases hp : p.1 = k
    · rw [if_pos (by simp [hp])]
      rw [List.find?_cons_of_pos _ (by simp),
        List.find?_cons_of_pos _ (by simp [hp])]
      rfl
    · rw [if_neg (by simp [hp])]
      rw [List.find?_cons_of_neg _ (by simp [hp]),
        List.find?_cons_of_neg _ (by simp [hp])]
      exact ih

/-- Replacing the entry under one key is invisible to a search for another
key. -/
theorem find?_set_other (t : Storage) (k v k2 : String) (hne : k2 ≠ k) :
    List.find? (fun p => p.1 == k2) (List.map (fun p => if p.1 == k then (k, v) else p) t) =
      List.find? (fun p => p.1 == k2) t := by
  induction t with
  | nil => rfl
  | cons p t ih =>
    simp only [List.map_cons]
    by_cases hp : p.1 = k
    · rw [if_pos (by simp [hp])]
      rw [List.find?_cons_of_neg _ (by simp [Ne.symm hne]),
        List.find?_cons_of_neg _ (by simp [hp, Ne.symm hne])]
      exact ih
    · rw [if_neg (by simp [hp])]
      by_cases hq : p.1 = k2
      · rw [List.find?_cons_of_pos _ (by simp [hq]),
          List.find?_cons_of_pos _ (by simp [hq])]
      · rw [List.find?_cons_of_neg _ (by simp [hq]),
          List.find?_cons_of_neg _ (by simp [hq])]
        exact ih

/-- A search for a key succeeds on any storage whose scan for the key
succeeds. -/
theorem find?_of_any (t : Storage) (k : String)
    (h : List.any t (fun p => p.1 == k) = true) :
    ∃ w, List.find? (fun p => p.1 == k) t = some w := by
  induction t with
  | nil => simp at h
  | cons p t ih =>
    by_cases hp : p.1 = k
    · exact ⟨p, List.find?_cons_of_pos _ (by simp [hp])⟩
    · rw [List.find?_cons_of_neg _ (by simp [hp])]
      refine ih ?_
      simpa [show (p.1 == k) = false by simp [hp]] using h

/-- A failed scan for a key means a failed search. -/
theorem find?_of_not_any (t : Storage) (k : String)
    (h : ¬ List.any t (fun p => p.1 == k) = true) :
    List.find? (fun p => p.1 == k) t = none := by
  rw [List.find?_eq_none]
  intro p hp hpk
  exact h (List.any_eq_true.mpr ⟨p, hp, hpk⟩)

/-- Setting a key stores exactly that value under the key. -/
theorem getItem_setItem_self (s : Storage) (k v : String) :
    localStorage.getItem (localStorage.setItem s k v) k = some v := by
  unfold localStorage.getItem localStorage.setItem
  by_cases h : List.any s (fun p => p.1 == k) = true
  · rw [if_pos h, find?_set_self]
    obtain ⟨w, hw⟩ := find?_of_any s k h
    rw [hw]
    rfl
  · rw [if_neg h, List.find?_append, find?_of_not_any s k h]
    simp

/-- Setting a key leaves every other key unchanged. -/
theorem getItem_setItem_other (s : Storage) (k v k2 : String) (hne : k2 ≠ k) :
    localStorage.getItem (localStorage.setItem s k v) k2 = localStorage.getItem s k2 := by
  unfold localStorage.getItem localStorage.setItem
  by_cases h : List.any s (fun p => p.1 == k) = true
  · rw [if_pos h, find?_set_other s k v k2 hne]
  · rw [if_neg h, List.find?_append]
    cases hf : List.find? (fun p => p.1 == k2) s with
    | some w => simp
    | none =>
      rw [List.find?_cons_of_neg _ (by simp [Ne.symm hne])]
      simp

/-- Removing a key leaves no value under it. -/
theorem getItem_removeItem_self (s : Storage) (k : String) :
    localStorage.getItem (localStorage.removeItem s k) k = none := by
  unfold localStorage.getItem localStorage.removeItem
  rw [List.find?_eq_none.mpr]
  · rfl
  · intro p hp
    have h2 := (List.mem_filter.mp hp).2
    simp only [bne_iff_ne, ne_eq] at h2
    simp [h2]

/-- Removing a key leaves every other key unchanged. -/
theorem getItem_removeItem_other (s : Storage) (k k2 : String) (hne : k2 ≠ k) :
    localStorage.getItem (localStorage.removeItem s k) k2 = localStorage.getItem s k2 := by
  unfold localStorage.getItem localStorage.removeItem
  congr 1
  induction s with
  | nil => rfl
  | cons p t ih =>
    by_cases hp : p.1 = k
    · have hq : (p.1 == k2) = false := by simp [hp, Ne.symm hne]
      simp only [List.filter_cons]
      rw [if_neg (by simp [hp])]
      rw [ih, List.find?]
      simp [hq]
    · simp only [List.filter_cons]
      rw [if_pos (by simp [hp])]
      by_cases hq : p.1 = k2
      · simp [List.find?, hq]
      · simp only [List.find?]
        rw [show (p.1 == k2) = false by simp [hq], ih]

end StorageLemmas

section RequestLemmas

/-- Spreading no extra headers keeps the default headers unchanged. -/
theorem mergeHeaders_nil (base : List (String × String)) :
    mergeHeaders base [] = base := by
  unfold mergeHeaders
  simp

/-- The generic helper issues exactly one fetch, the built request, on
every outcome. -/
theorem request_trace (b ep : String) (opts : RequestOptions) (st : Storage)
    (env : Request → Response) :
    (MongoDBAPI.request b ep opts st env).trace = [MongoDBAPI.builtRequest b ep opts st] :=
  rfl

/-- The generic helper never touches browser storage. -/
theorem request_storage (b ep : String) (opts : RequestOptions) (st : Storage)
    (env : Request → Response) :
    (MongoDBAPI.request b ep opts st env).storage = st :=
  rfl

/-- The settled promise of the generic helper, by case on the response. -/
theorem request_result (b ep : String) (opts : RequestOptions) (st : Storage)
    (env : Request → Response) :
    (MongoDBAPI.request b ep opts st env).result =
      (if (env (MongoDBAPI.builtRequest b ep opts st)).ok then
         match (env (MongoDBAPI.builtRequest b ep opts st)).body with
         | .ok j => .ok j
         | .error _ => .error .jsonParseError
       else .error (.thrown (MongoDBAPI.errorMessageOf
         (env (MongoDBAPI.builtRequest b ep opts st)).body))) :=
  rfl

/-- A request built with no extra headers carries exactly the default JSON
headers. -/
theorem builtRequest_no_extra (b ep : String) (m : Option String)
    (bd : RequestBody) (st : Storage) :
    MongoDBAPI.builtRequest b ep { method := m, body := bd } st =
      { url := b ++ ep, method := m.getD "GET",
        headers := MongoDBAPI.jsonHeaders st, body := bd } := by
  unfold MongoDBAPI.builtRequest
  rw [mergeHeaders_nil]

end RequestLemmas

/-- Modelled from the spec: a one-line adapter over the shared request
primitive, fixing only the endpoint, the HTTP method and the payload shape
and returning the wrapper result unchanged. -/
def specAdapter (baseURL endpoint : String) (method : Option String)
    (body : RequestBody) (storage : Storage) (env : Request → Response) : ApiResult Json :=
  MongoDBAPI.request baseURL endpoint { method := method, body := body } storage env

section TestEnvironments

/-- A backend that answers every request with a success and a null JSON
body. -/
def envOkNull : Request → Response :=
  fun _ => { ok := true, status := 200, body := .ok Json.null }

/-- A backend that answers every request with a successful login payload
carrying the token T. -/
def envLoginSample : Request → Response :=
  fun _ =>
    { ok := true
      status := 200
      body := .ok (Json.obj [("id", Json.str "1"), ("name", Json.str "n"),
        ("email", Json.str "e"), ("role", Json.str "admin"), ("token", Json.str "T")]) }

/-- A backend that fails every request with the error payload
message: boom. -/
def envFailBoom : Request → Response :=
  fun _ => { ok := false, status := 500, body := .ok (Json.obj [("message", Json.str "boom")]) }

/-- A backend that fails every request with a payload whose message field
is the empty array: a truthy JavaScript value whose string coercion is
empty. -/
def envFailArrMsg : Request → Response :=
  fun _ => { ok := false, status := 400, body := .ok (Json.obj [("message", Json.arr [])]) }

/-- A backend that fails every request with a body that is not valid
JSON. -/
def envFailRaw : Request → Response :=
  fun _ => { ok := false, status := 502, body := .error () }

end TestEnvironments

section MethodLemmas

/-- The single request issued by `login`. -/
theorem login_trace (b e p : String) (st : Storage) (env : Request → Response) :
    (MongoDBAPI.login b e p st env).trace =
      [{ url := b ++ "/users/login", method := "POST",
         headers := MongoDBAPI.jsonHeaders st,
         body := RequestBody.jsonString
           (Json.obj [("email", Json.str e), ("password", Json.str p)]) }] := by
  simp only [MongoDBAPI.login]
  split <;> (rw [request_trace, builtRequest_no_extra]; rfl)

/-- The single request issued by `registerUser`. -/
theorem registerUser_trace (b : String) (d : CreateUserData) (st : Storage)
    (env : Request → Response) :
    (MongoDBAPI.registerUser b d st env).trace =
      [{ url := b ++ "/users/register", method := "POST",
         headers := MongoDBAPI.jsonHeaders st,
         body := RequestBody.jsonString d.toJson }] := by
  simp only [MongoDBAPI.registerUser]
  split <;> (rw [request_trace, builtRequest_no_extra]; rfl)

/-- The single request issued by `getCurrentUser`. -/
theorem getCurrentUser_trace (b : String) (st : Storage) (env : Request → Response) :
    (MongoDBAPI.getCurrentUser b st env).trace =
      [{ url := b ++ "/users/me", method := "GET",
         headers := MongoDBAPI.jsonHeaders st, body := RequestBody.none }] := by
  simp only [MongoDBAPI.getCurrentUser]
  split <;> (rw [request_trace, builtRequest_no_extra]; rfl)

/-- The single request issued by `getJobs`. -/
theorem getJobs_trace (b : String) (f : Option JobFilters) (st : Storage)
    (env : Request → Response) :
    (MongoDBAPI.getJobs b f st env).trace =
      [{ url := b ++ MongoDBAPI.jobsEndpoint f, method := "GET",
         headers := MongoDBAPI.jsonHeaders st, body := RequestBody.none }] := by
  unfold MongoDBAPI.getJobs
  (rw [request_trace, builtRequest_no_extra]; rfl)

/-- The single request issued by `getJob`. -/
theorem getJob_trace (b id : String) (st : Storage) (env : Request → Response) :
    (MongoDBAPI.getJob b id st env).trace =
      [{ url := b ++ ("/jobs/" ++ id), method := "GET",
         headers := MongoDBAPI.jsonHeaders st, body := RequestBody.none }] := by
  unfold MongoDBAPI.getJob
  (rw [request_trace, builtRequest_no_extra]; rfl)

/-- The single request issued by `createJob`. -/
theorem createJob_trace (b : String) (d : CreateJobData) (st : Storage)
    (env : Request → Response) :
    (MongoDBAPI.createJob b d st env).trace =
      [{ url := b ++ "/jobs", method := "POST",
         headers := MongoDBAPI.jsonHeaders st,
         body := RequestBody.jsonString d.toJson }] := by
  unfold MongoDBAPI.createJob
  (rw [request_trace, builtRequest_no_extra]; rfl)

/-- The single request issued by `updateJob`. -/
theorem updateJob_trace (b id : String) (d : UpdateJobData) (st : Storage)
    (env : Request → Response) :
    (MongoDBAPI.updateJob b id d st env).trace =
      [{ url := b ++ ("/jobs/" ++ id), method := "PUT",
         headers := MongoDBAPI.jsonHeaders st,
         body := RequestBody.jsonString d.toJson }] := by
  unfold MongoDBAPI.updateJob
  (rw [request_trace, builtRequest_no_extra]; rfl)

/-- The single request issued by `deleteJob`. -/
theorem deleteJob_trace (b id : String) (st : Storage) (env : Request → Response) :
    (MongoDBAPI.deleteJob b id st env).trace =
      [{ url := b ++ ("/jobs/" ++ id), method := "DELETE",
         headers := MongoDBAPI.jsonHeaders st, body := RequestBody.none }] := by
  simp only [MongoDBAPI.deleteJob]
  split <;> (rw [request_trace, builtRequest_no_extra]; rfl)

/-- The single request issued by `claimJob`. -/
theorem claimJob_trace (b id : String) (st : Storage) (env : Request → Response) :
    (MongoDBAPI.claimJob b id st env).trace =
      [{ url := b ++ ("/jobs/" ++ id ++ "/claim"), method := "POST",
         headers := MongoDBAPI.jsonHeaders st, body := RequestBody.none }] := by
  simp only [MongoDBAPI.claimJob]
  split <;> (rw [request_trace, builtRequest_no_extra]; rfl)

/-- The single request issued by `updateJobStatus`. -/
theorem updateJobStatus_trace (b id s : String) (st : Storage) (env : Request → Response) :
    (MongoDBAPI.updateJobStatus b id s st env).trace =
      [{ url := b ++ ("/jobs/" ++ id ++ "/status"), method := "POST",
         headers := MongoDBAPI.jsonHeaders st,
         body := RequestBody.jsonString (Json.obj [("status", Json.str s)]) }] := by
  simp only [MongoDBAPI.updateJobStatus]
  split <;> (rw [request_trace, builtRequest_no_extra]; rfl)

/-- The single request issued by `submitPDF`. -/
theorem submitPDF_trace (b id f : String) (st : Storage) (env : Request → Response) :
    (MongoDBAPI.submitPDF b id f st env).trace = [MongoDBAPI.submitRequest b id f st] :=
  rfl

/-- The single request issued by `downloadPDF`. -/
theorem downloadPDF_trace (b id : String) (st : Storage) (env : Request → Response) :
    (MongoDBAPI.downloadPDF b id st env).trace = [MongoDBAPI.downloadRequest b id st] :=
  rfl

/-- The single request issued by `getUsers`. -/
theorem getUsers_trace (b : String) (st : Storage) (env : Request → Response) :
    (MongoDBAPI.getUsers b st env).trace =
      [{ url := b ++ "/users", method := "GET",
         headers := MongoDBAPI.jsonHeaders st, body := RequestBody.none }] := by
  unfold MongoDBAPI.getUsers
  (rw [request_trace, builtRequest_no_extra]; rfl)

/-- The single request issued by `createUser`. -/
theorem createUser_trace (b : String) (d : CreateUserData) (st : Storage)
    (env : Request → Response) :
    (MongoDBAPI.createUser b d st env).trace =
      [{ url := b ++ "/users/register", method := "POST",
         headers := MongoDBAPI.jsonHeaders st,
         body := RequestBody.jsonString d.toJson }] := by
  unfold MongoDBAPI.createUser
  (rw [request_trace, builtRequest_no_extra]; rfl)

/-- The single request issued by `updateUser`. -/
theorem updateUser_trace (b id : String) (d : UpdateUserData) (st : Storage)
    (env : Request → Response) :
    (MongoDBAPI.updateUser b id d st env).trace =
      [{ url := b ++ ("/users/" ++ id), method := "PUT",
         headers := MongoDBAPI.jsonHeaders st,
         body := RequestBody.jsonString d.toJson }] := by
  unfold MongoDBAPI.updateUser
  (rw [request_trace, builtRequest_no_extra]; rfl)

/-- The single request issued by `deleteUser`. -/
theorem deleteUser_trace (b id : String) (st : Storage) (env : Request → Response) :
    (MongoDBAPI.deleteUser b id st env).trace =
      [{ url := b ++ ("/users/" ++ id), method := "DELETE",
         headers := MongoDBAPI.jsonHeaders st, body := RequestBody.none }] := by
  simp only [MongoDBAPI.deleteUser]
  split <;> (rw [request_trace, builtRequest_no_extra]; rfl)

/-- Every method wrapping the helper with a discarded body keeps storage
unchanged; so do the manual fetch methods. -/
theorem deleteJob_storage (b id : String) (st : Storage) (env : Request → Response) :
    (MongoDBAPI.deleteJob b id st env).storage = st := by
  simp only [MongoDBAPI.deleteJob]
  split <;> rfl

/-- `claimJob` keeps storage unchanged. -/
theorem claimJob_storage (b id : String) (st : Storage) (env : Request → Response) :
    (MongoDBAPI.claimJob b id st env).storage = st := by
  simp only [MongoDBAPI.claimJob]
  split <;> rfl

/-- `updateJobStatus` keeps storage unchanged. -/
theorem updateJobStatus_storage (b id s : String) (st : Storage) (env : Request → Response) :
    (MongoDBAPI.updateJobStatus b id s st env).storage = st := by
  simp only [MongoDBAPI.updateJobStatus]
  split <;> rfl

/-- `deleteUser` keeps storage unchanged. -/
theorem deleteUser_storage (b id : String) (st : Storage) (env : Request → Response) :
    (MongoDBAPI.deleteUser b id st env).storage = st := by
  simp only [MongoDBAPI.deleteUser]
  split <;> rfl

/-- `getCurrentUser` keeps storage unchanged. -/
theorem getCurrentUser_storage (b : String) (st : Storage) (env : Request → Response) :
    (MongoDBAPI.getCurrentUser b st env).storage = st := by
  simp only [MongoDBAPI.getCurrentUser]
  split <;> rfl

end MethodLemmas

/-- C1 (corrected): with no token in browser storage, `submitPDF` still
sends an Authorization header, with the value Bearer null, so the header is
not absent as claimed. -/
theorem C1_counterexample :
    localStorage.getItem ([] : Storage) "authToken" = none ∧
    (MongoDBAPI.submitPDF "" "j1" "f.pdf" [] envOkNull).trace.map Request.headers =
      [[("Authorization", "Bearer null")]] :=
  ⟨rfl, rfl⟩

/-- C1 (amended): requests through the generic helper carry
Authorization Bearer token exactly when a truthy (non-empty) token is
stored; a missing token, like a stored empty string (falsy under the
source's `if (token)` guard), attaches no Authorization header; `submitPDF`
and `downloadPDF` always carry an Authorization header, whose value is
Bearer token when a token is stored and Bearer null when none is. -/
theorem C1_bearer_header :
    (∀ st t, localStorage.getItem st "authToken" = some t → t ≠ "" →
      List.contains (MongoDBAPI.jsonHeaders st) ("Authorization", "Bearer " ++ t) = true) ∧
    (∀ st, localStorage.getItem st "authToken" = none →
      List.all (MongoDBAPI.jsonHeaders st) (fun p => p.1 != "Authorization") = true) ∧
    (∀ st, localStorage.getItem st "authToken" = some "" →
      List.all (MongoDBAPI.jsonHeaders st) (fun p => p.1 != "Authorization") = true) ∧
    (∀ b ep opts st env, opts.headers = [] →
      (MongoDBAPI.request b ep opts st env).trace.map Request.headers =
        [MongoDBAPI.jsonHeaders st]) ∧
    (∀ b id f st env, (MongoDBAPI.submitPDF b id f st env).trace.map Request.headers =
      [[("Authorization",
          "Bearer " ++ MongoDBAPI.tokenTemplate (localStorage.getItem st "authToken"))]]) ∧
    (∀ b id st env, (MongoDBAPI.downloadPDF b id st env).trace.map Request.headers =
      [[("Authorization",
          "Bearer " ++ MongoDBAPI.tokenTemplate (localStorage.getItem st "authToken"))]]) ∧
    (∀ t, MongoDBAPI.tokenTemplate (some t) = t) ∧
    MongoDBAPI.tokenTemplate none = "null" := by
  refine ⟨?_, ?_, ?_, ?_, ?_, ?_, ?_, rfl⟩
  · intro st t h ht
    simp [MongoDBAPI.jsonHeaders, h, ht]
  · intro st h
    unfold MongoDBAPI.jsonHeaders
    rw [h]
    decide
  · intro st h
    unfold MongoDBAPI.jsonHeaders
    rw [h]
    decide
  · intro b ep opts st env hh
    rw [request_trace]
    unfold MongoDBAPI.builtRequest
    rw [hh, mergeHeaders_nil]
    rfl
  · intro b id f st env
    rfl
  · intro b id st env
    rfl
  · intro t
    rfl

/-- C1 witness: the amended theorem at concrete inputs: a storage holding
the token tok carries the bearer header, the empty storage and a storage
holding the falsy empty-string token carry no Authorization key, and a
helper request with no extra headers sends exactly the default JSON
headers. -/
theorem C1_bearer_header_witness :
    List.contains (MongoDBAPI.jsonHeaders [("authToken", "tok")])
      ("Authorization", "Bearer " ++ "tok") = true ∧
    List.all (MongoDBAPI.jsonHeaders []) (fun p => p.1 != "Authorization") = true ∧
    List.all (MongoDBAPI.jsonHeaders [("authToken", "")])
      (fun p => p.1 != "Authorization") = true ∧
    (MongoDBAPI.request "" "/jobs" {} [] envOkNull).trace.map Request.headers =
      [MongoDBAPI.jsonHeaders []] :=
  ⟨C1_bearer_header.1 [("authToken", "tok")] "tok" rfl (by decide),
   C1_bearer_header.2.1 [] rfl,
   C1_bearer_header.2.2.1 [("authToken", "")] rfl,
   C1_bearer_header.2.2.2.1 "" "/jobs" {} [] envOkNull rfl⟩

/-- C2 (corrected): a non-success response whose payload has the empty
array as its message field makes the wrapper reject with an empty message:
the array is truthy, so it survives the fallback disjunction, and the Error
constructor coerces it to the empty string. -/
theorem C2_counterexample :
    (MongoDBAPI.request "" "/jobs" {} [] envFailArrMsg).result =
      .error (.thrown "") :=
  rfl

/-- C2 (amended): every non-success response makes the operation reject
with a thrown error; the message is non-empty whenever the body is not
valid JSON, the message field is missing, or the message field is a
non-empty string; it can only be empty when the payload carries a truthy
message value whose JavaScript string coercion is empty. -/
theorem C2_nonempty_error :
    (∀ b ep opts st env, (env (MongoDBAPI.builtRequest b ep opts st)).ok = false →
      (MongoDBAPI.request b ep opts st env).result =
        .error (.thrown (MongoDBAPI.errorMessageOf
          (env (MongoDBAPI.builtRequest b ep opts st)).body))) ∧
    (∀ b id f st env, (env (MongoDBAPI.submitRequest b id f st)).ok = false →
      (MongoDBAPI.submitPDF b id f st env).result =
        .error (.thrown (MongoDBAPI.errorMessageOf
          (env (MongoDBAPI.submitRequest b id f st)).body))) ∧
    (∀ b id st env, (env (MongoDBAPI.downloadRequest b id st)).ok = false →
      (MongoDBAPI.downloadPDF b id st env).result =
        .error (.thrown "Failed to download PDF")) ∧
    (∀ body, MongoDBAPI.errorMessageOf body = "" →
      ∃ j, body = .ok j ∧ (Json.getField j "message").truthy = true ∧
        (Json.getField j "message").jsString = "") ∧
    (∀ j s, Json.getField j "message" = Json.str s → s ≠ "" →
      MongoDBAPI.errorMessageOf (.ok j) = s) ∧
    MongoDBAPI.errorMessageOf (.error ()) = "Unknown error" ∧
    (∀ j, Json.getField j "message" = Json.undefined →
      MongoDBAPI.errorMessageOf (.ok j) = "API request failed") ∧
    ("Failed to download PDF" ≠ "" ∧ "Unknown error" ≠ "" ∧ "API request failed" ≠ "") := by
  refine ⟨?_, ?_, ?_, ?_, ?_, rfl, ?_, by decide, by decide, by decide⟩
  · intro b ep opts st env h
    rw [request_result, if_neg (by simp [h])]
  · intro b id f st env h
    simp only [MongoDBAPI.submitPDF]
    rw [if_neg (by simp [h])]
  · intro b id st env h
    simp only [MongoDBAPI.downloadPDF]
    rw [if_neg (by simp [h])]
  · intro body h
    match body with
    | .error () => exact absurd h (by decide)
    | .ok j =>
      by_cases ht : (Json.getField j "message").truthy = true
      · refine ⟨j, rfl, ht, ?_⟩
        simpa [MongoDBAPI.errorMessageOf, MongoDBAPI.errorPayload, ht] using h
      · exfalso
        rw [MongoDBAPI.errorMessageOf] at h
        simp only [MongoDBAPI.errorPayload] at h
        rw [if_neg ht] at h
        exact absurd h (by decide)
  · intro j s hm hs
    rw [MongoDBAPI.errorMessageOf]
    simp only [MongoDBAPI.errorPayload]
    rw [hm]
    simp [Json.truthy, Json.jsString, hs]
  · intro j hm
    rw [MongoDBAPI.errorMessageOf]
    simp only [MongoDBAPI.errorPayload]
    rw [hm]
    rfl

/-- C2 witness: the amended theorem at concrete inputs: a failing backend
with a string message makes the request reject with that decoded message,
and a string message boom is surfaced verbatim. -/
theorem C2_nonempty_error_witness :
    (MongoDBAPI.request "" "/jobs" {} [] envFailBoom).result =
      .error (.thrown (MongoDBAPI.errorMessageOf
        (envFailBoom (MongoDBAPI.builtRequest "" "/jobs" {} [])).body)) ∧
    MongoDBAPI.errorMessageOf (.ok (Json.obj [("message", Json.str "boom")])) = "boom" :=
  ⟨C2_nonempty_error.1 "" "/jobs" {} [] envFailBoom rfl,
   C2_nonempty_error.2.2.2.2.1 (Json.obj [("message", Json.str "boom")]) "boom" rfl (by decide)⟩

/-- C3 (corrected): `logout` is a typed method of the API object that
issues no HTTP call at all, so not every typed method issues exactly one
call. -/
theorem C3_counterexample :
    (MongoDBAPI.logout []).trace = ([] : List Request) :=
  rfl

/-- C3 (amended): every typed method except `logout` issues exactly one
underlying HTTP call with its documented method, path and body; `logout`
issues none. -/
theorem C3_one_call :
    (∀ b e p st env, (MongoDBAPI.login b e p st env).trace =
      [{ url := b ++ "/users/login", method := "POST",
         headers := MongoDBAPI.jsonHeaders st,
         body := RequestBody.jsonString
           (Json.obj [("email", Json.str e), ("password", Json.str p)]) }]) ∧
    (∀ b d st env, (MongoDBAPI.registerUser b d st env).trace =
      [{ url := b ++ "/users/register", method := "POST",
         headers := MongoDBAPI.jsonHeaders st,
         body := RequestBody.jsonString (CreateUserData.toJson d) }]) ∧
    (∀ b st env, (MongoDBAPI.getCurrentUser b st env).trace =
      [{ url := b ++ "/users/me", method := "GET",
         headers := MongoDBAPI.jsonHeaders st, body := RequestBody.none }]) ∧
    (∀ b f st env, (MongoDBAPI.getJobs b f st env).trace =
      [{ url := b ++ MongoDBAPI.jobsEndpoint f, method := "GET",
         headers := MongoDBAPI.jsonHeaders st, body := RequestBody.none }]) ∧
    MongoDBAPI.jobsEndpoint Option.none = "/jobs" ∧
    (∀ b id st env, (MongoDBAPI.getJob b id st env).trace =
      [{ url := b ++ ("/jobs/" ++ id), method := "GET",
         headers := MongoDBAPI.jsonHeaders st, body := RequestBody.none }]) ∧
    (∀ b d st env, (MongoDBAPI.createJob b d st env).trace =
      [{ url := b ++ "/jobs", method := "POST",
         headers := MongoDBAPI.jsonHeaders st,
         body := RequestBody.jsonString (CreateJobData.toJson d) }]) ∧
    (∀ b id d st env, (MongoDBAPI.updateJob b id d st env).trace =
      [{ url := b ++ ("/jobs/" ++ id), method := "PUT",
         headers := MongoDBAPI.jsonHeaders st,
         body := RequestBody.jsonString (UpdateJobData.toJson d) }]) ∧
    (∀ b id st env, (MongoDBAPI.deleteJob b id st env).trace =
      [{ url := b ++ ("/jobs/" ++ id), method := "DELETE",
         headers := MongoDBAPI.jsonHeaders st, body := RequestBody.none }]) ∧
    (∀ b id st env, (MongoDBAPI.claimJob b id st env).trace =
      [{ url := b ++ ("/jobs/" ++ id ++ "/claim"), method := "POST",
         headers := MongoDBAPI.jsonHeaders st, body := RequestBody.none }]) ∧
    (∀ b id s st env, (MongoDBAPI.updateJobStatus b id s st env).trace =
      [{ url := b ++ ("/jobs/" ++ id ++ "/status"), method := "POST",
         headers := MongoDBAPI.jsonHeaders st,
         body := RequestBody.jsonString (Json.obj [("status", Json.str s)]) }]) ∧
    (∀ b id f st env, (MongoDBAPI.submitPDF b id f st env).trace =
      [{ url := b ++ "/jobs/" ++ id ++ "/submit", method := "POST",
         headers := [("Authorization",
           "Bearer " ++ MongoDBAPI.tokenTemplate (localStorage.getItem st "authToken"))],
         body := RequestBody.formData [("submission", f)] }]) ∧
    (∀ b id st env, (MongoDBAPI.downloadPDF b id st env).trace =
      [{ url := b ++ "/jobs/" ++ id ++ "/download", method := "GET",
         headers := [("Authorization",
           "Bearer " ++ MongoDBAPI.tokenTemplate (localStorage.getItem st "authToken"))],
         body := RequestBody.none }]) ∧
    (∀ b st env, (MongoDBAPI.getUsers b st env).trace =
      [{ url := b ++ "/users", method := "GET",
         headers := MongoDBAPI.jsonHeaders st, body := RequestBody.none }]) ∧
    (∀ b d st env, (MongoDBAPI.createUser b d st env).trace =
      [{ url := b ++ "/users/register", method := "POST",
         headers := MongoDBAPI.jsonHeaders st,
         body := RequestBody.jsonString (CreateUserData.toJson d) }]) ∧
    (∀ b id d st env, (MongoDBAPI.updateUser b id d st env).trace =
      [{ url := b ++ ("/users/" ++ id), method := "PUT",
         headers := MongoDBAPI.jsonHeaders st,
         body := RequestBody.jsonString (UpdateUserData.toJson d) }]) ∧
    (∀ b id st env, (MongoDBAPI.deleteUser b id st env).trace =
      [{ url := b ++ ("/users/" ++ id), method := "DELETE",
         headers := MongoDBAPI.jsonHeaders st, body := RequestBody.none }]) ∧
    (∀ st, (MongoDBAPI.logout st).trace = []) :=
  ⟨login_trace, registerUser_trace, getCurrentUser_trace, getJobs_trace, rfl,
   getJob_trace, createJob_trace, updateJob_trace, deleteJob_trace, claimJob_trace,
   updateJobStatus_trace, submitPDF_trace, downloadPDF_trace, getUsers_trace,
   createUser_trace, updateUser_trace, deleteUser_trace, fun _ => rfl⟩

/-- C4 (confirmed): on a successful login or registration response whose
token field is a string, the token is stored under authToken in browser
storage and the promise resolves with the rebuilt user record. -/
theorem C4_token_stored :
    (∀ b e p st env j t,
      (env (MongoDBAPI.builtRequest b "/users/login"
        { method := some "POST"
          body := RequestBody.jsonString
            (Json.obj [("email", Json.str e), ("password", Json.str p)]) } st)).ok = true →
      (env (MongoDBAPI.builtRequest b "/users/login"
        { method := some "POST"
          body := RequestBody.jsonString
            (Json.obj [("email", Json.str e), ("password", Json.str p)]) } st)).body = .ok j →
      Json.getField j "token" = Json.str t →
      (MongoDBAPI.login b e p st env).storage = localStorage.setItem st "authToken" t ∧
      localStorage.getItem (MongoDBAPI.login b e p st env).storage "authToken" = some t ∧
      (MongoDBAPI.login b e p st env).result =
        .ok (Json.obj [("id", Json.getField j "id"), ("name", Json.getField j "name"),
          ("email", Json.getField j "email"), ("role", Json.getField j "role")])) ∧
    (∀ b d st env j t,
      (env (MongoDBAPI.builtRequest b "/users/register"
        { method := some "POST"
          body := RequestBody.jsonString (CreateUserData.toJson d) } st)).ok = true →
      (env (MongoDBAPI.builtRequest b "/users/register"
        { method := some "POST"
          body := RequestBody.jsonString (CreateUserData.toJson d) } st)).body = .ok j →
      Json.getField j "token" = Json.str t →
      (MongoDBAPI.registerUser b d st env).storage = localStorage.setItem st "authToken" t ∧
      localStorage.getItem (MongoDBAPI.registerUser b d st env).storage "authToken" = some t ∧
      (MongoDBAPI.registerUser b d st env).result =
        .ok (Json.obj [("id", Json.getField j "id"), ("name", Json.getField j "name"),
          ("email", Json.getField j "email"), ("role", Json.getField j "role")])) := by
  constructor
  · intro b e p st env j t hok hbody htok
    have hres : (MongoDBAPI.request b "/users/login"
        { method := some "POST"
          body := RequestBody.jsonString
            (Json.obj [("email", Json.str e), ("password", Json.str p)]) } st env).result =
        .ok j := by
      rw [request_result, if_pos hok, hbody]
    have hst : (MongoDBAPI.login b e p st env).storage =
        localStorage.setItem st "authToken" t := by
      simp only [MongoDBAPI.login, hres]
      rw [htok]
      rfl
    refine ⟨hst, ?_, ?_⟩
    · rw [hst]
      exact getItem_setItem_self st "authToken" t
    · simp only [MongoDBAPI.login, hres]
  · intro b d st env j t hok hbody htok
    have hres : (MongoDBAPI.request b "/users/register"
        { method := some "POST"
          body := RequestBody.jsonString (CreateUserData.toJson d) } st env).result =
        .ok j := by
      rw [request_result, if_pos hok, hbody]
    have hst : (MongoDBAPI.registerUser b d st env).storage =
        localStorage.setItem st "authToken" t := by
      simp only [MongoDBAPI.registerUser, hres]
      rw [htok]
      rfl
    refine ⟨hst, ?_, ?_⟩
    · rw [hst]
      exact getItem_setItem_self st "authToken" t
    · simp only [MongoDBAPI.registerUser, hres]

/-- C4 witness: a successful login against a backend returning the token T
from the empty storage stores authToken T and resolves the rebuilt user. -/
theorem C4_token_stored_witness :
    (MongoDBAPI.login "" "e" "p" [] envLoginSample).storage =
      localStorage.setItem [] "authToken" "T" ∧
    localStorage.getItem (MongoDBAPI.login "" "e" "p" [] envLoginSample).storage "authToken" =
      some "T" ∧
    (MongoDBAPI.login "" "e" "p" [] envLoginSample).result =
      .ok (Json.obj [
        ("id", Json.getField (Json.obj [("id", Json.str "1"), ("name", Json.str "n"),
          ("email", Json.str "e"), ("role", Json.str "admin"), ("token", Json.str "T")]) "id"),
        ("name", Json.getField (Json.obj [("id", Json.str "1"), ("name", Json.str "n"),
          ("email", Json.str "e"), ("role", Json.str "admin"), ("token", Json.str "T")]) "name"),
        ("email", Json.getField (Json.obj [("id", Json.str "1"), ("name", Json.str "n"),
          ("email", Json.str "e"), ("role", Json.str "admin"), ("token", Json.str "T")]) "email"),
        ("role", Json.getField (Json.obj [("id", Json.str "1"), ("name", Json.str "n"),
          ("email", Json.str "e"), ("role", Json.str "admin"), ("token", Json.str "T")]) "role")]) :=
  C4_token_stored.1 "" "e" "p" [] envLoginSample
    (Json.obj [("id", Json.str "1"), ("name", Json.str "n"),
      ("email", Json.str "e"), ("role", Json.str "admin"), ("token", Json.str "T")])
    "T" rfl rfl rfl

/-- C5 (confirmed): authToken is the only persistent client-side state:
login and registration touch at most the authToken entry, logout removes
exactly it, and every other operation leaves browser storage entirely
unchanged. -/
theorem C5_storage_frame :
    (∀ b f st env, (MongoDBAPI.getJobs b f st env).storage = st) ∧
    (∀ b id st env, (MongoDBAPI.getJob b id st env).storage = st) ∧
    (∀ b d st env, (MongoDBAPI.createJob b d st env).storage = st) ∧
    (∀ b id d st env, (MongoDBAPI.updateJob b id d st env).storage = st) ∧
    (∀ b id st env, (MongoDBAPI.deleteJob b id st env).storage = st) ∧
    (∀ b id st env, (MongoDBAPI.claimJob b id st env).storage = st) ∧
    (∀ b id s st env, (MongoDBAPI.updateJobStatus b id s st env).storage = st) ∧
    (∀ b id f st env, (MongoDBAPI.submitPDF b id f st env).storage = st) ∧
    (∀ b id st env, (MongoDBAPI.downloadPDF b id st env).storage = st) ∧
    (∀ b st env, (MongoDBAPI.getUsers b st env).storage = st) ∧
    (∀ b d st env, (MongoDBAPI.createUser b d st env).storage = st) ∧
    (∀ b id d st env, (MongoDBAPI.updateUser b id d st env).storage = st) ∧
    (∀ b id st env, (MongoDBAPI.deleteUser b id st env).storage = st) ∧
    (∀ b st env, (MongoDBAPI.getCurrentUser b st env).storage = st) ∧
    (∀ b e p st env k, k ≠ "authToken" →
      localStorage.getItem (MongoDBAPI.login b e p st env).storage k =
        localStorage.getItem st k) ∧
    (∀ b d st env k, k ≠ "authToken" →
      localStorage.getItem (MongoDBAPI.registerUser b d st env).storage k =
        localStorage.getItem st k) ∧
    (∀ st, (MongoDBAPI.logout st).storage = localStorage.removeItem st "authToken") ∧
    (∀ st k, k ≠ "authToken" →
      localStorage.getItem (MongoDBAPI.logout st).storage k = localStorage.getItem st k) := by
  refine ⟨fun _ _ _ _ => rfl, fun _ _ _ _ => rfl, fun _ _ _ _ => rfl, fun _ _ _ _ _ => rfl,
    deleteJob_storage, claimJob_storage, updateJobStatus_storage,
    fun _ _ _ _ _ => rfl, fun _ _ _ _ => rfl, fun _ _ _ => rfl, fun _ _ _ _ => rfl,
    fun _ _ _ _ _ => rfl, deleteUser_storage, getCurrentUser_storage, ?_, ?_,
    fun _ => rfl, ?_⟩
  · intro b e p st env k hk
    simp only [MongoDBAPI.login]
    split
    · exact getItem_setItem_other st "authToken" _ k hk
    · rfl
  · intro b d st env k hk
    simp only [MongoDBAPI.registerUser]
    split
    · exact getItem_setItem_other st "authToken" _ k hk
    · rfl
  · intro st k hk
    exact getItem_removeItem_other st "authToken" k hk

/-- C5 witness: the frame conditions at concrete inputs: a login that
succeeds with a stored token leaves an unrelated key untouched, and logout
leaves an unrelated key untouched. -/
theorem C5_storage_frame_witness :
    localStorage.getItem
        (MongoDBAPI.login "" "e" "p" [("theme", "dark")] envLoginSample).storage "theme" =
      localStorage.getItem [("theme", "dark")] "theme" ∧
    localStorage.getItem (MongoDBAPI.logout [("theme", "dark")]).storage "theme" =
      localStorage.getItem [("theme", "dark")] "theme" :=
  ⟨C5_storage_frame.2.2.2.2.2.2.2.2.2.2.2.2.2.2.1
      "" "e" "p" [("theme", "dark")] envLoginSample "theme" (by decide),
   C5_storage_frame.2.2.2.2.2.2.2.2.2.2.2.2.2.2.2.2.2
      [("theme", "dark")] "theme" (by decide)⟩

/-- C6 (corrected): `login` does not resolve with the wrapper result
unchanged: against a backend whose login payload carries a token field, the
wrapper decodes the full five-field object while login resolves a rebuilt
four-field record without the token. -/
theorem C6_counterexample :
    (MongoDBAPI.login "" "e" "p" [] envLoginSample).result ≠
      (specAdapter "" "/users/login" (some "POST")
        (RequestBody.jsonString
          (Json.obj [("email", Json.str "e"), ("password", Json.str "p")]))
        [] envLoginSample).result := by
  have h1 : (MongoDBAPI.login "" "e" "p" [] envLoginSample).result =
      .ok (Json.obj [("id", Json.str "1"), ("name", Json.str "n"),
        ("email", Json.str "e"), ("role", Json.str "admin")]) := by rfl
  have h2 : (specAdapter "" "/users/login" (some "POST")
      (RequestBody.jsonString
        (Json.obj [("email", Json.str "e"), ("password", Json.str "p")]))
      [] envLoginSample).result =
      .ok (Json.obj [("id", Json.str "1"), ("name", Json.str "n"),
        ("email", Json.str "e"), ("role", Json.str "admin"), ("token", Json.str "T")]) := by
    rfl
  rw [h1, h2]
  simp

/-- C6 (amended): the JSON-returning job and user methods are exactly
adapters over the shared request primitive, fixing only endpoint, method
and payload and resolving with the wrapper result unchanged; the
void-returning methods fix endpoint, method and payload but discard the
wrapper result; login and registerUser instead rebuild the resolved record
(see the counterexample). -/
theorem C6_adapters :
    (∀ b f st env, MongoDBAPI.getJobs b f st env =
      specAdapter b (MongoDBAPI.jobsEndpoint f) Option.none RequestBody.none st env) ∧
    (∀ b id st env, MongoDBAPI.getJob b id st env =
      specAdapter b ("/jobs/" ++ id) Option.none RequestBody.none st env) ∧
    (∀ b d st env, MongoDBAPI.createJob b d st env =
      specAdapter b "/jobs" (some "POST")
        (RequestBody.jsonString (CreateJobData.toJson d)) st env) ∧
    (∀ b id d st env, MongoDBAPI.updateJob b id d st env =
      specAdapter b ("/jobs/" ++ id) (some "PUT")
        (RequestBody.jsonString (UpdateJobData.toJson d)) st env) ∧
    (∀ b st env, MongoDBAPI.getUsers b st env =
      specAdapter b "/users" Option.none RequestBody.none st env) ∧
    (∀ b d st env, MongoDBAPI.createUser b d st env =
      specAdapter b "/users/register" (some "POST")
        (RequestBody.jsonString (CreateUserData.toJson d)) st env) ∧
    (∀ b id d st env, MongoDBAPI.updateUser b id d st env =
      specAdapter b ("/users/" ++ id) (some "PUT")
        (RequestBody.jsonString (UpdateUserData.toJson d)) st env) ∧
    (∀ b id st env, (MongoDBAPI.deleteJob b id st env).result =
      Except.map (fun _ => ())
        ((specAdapter b ("/jobs/" ++ id) (some "DELETE") RequestBody.none st env).result)) ∧
    (∀ b id st env, (MongoDBAPI.claimJob b id st env).result =
      Except.map (fun _ => ())
        ((specAdapter b ("/jobs/" ++ id ++ "/claim") (some "POST")
          RequestBody.none st env).result)) ∧
    (∀ b id s st env, (MongoDBAPI.updateJobStatus b id s st env).result =
      Except.map (fun _ => ())
        ((specAdapter b ("/jobs/" ++ id ++ "/status") (some "POST")
          (RequestBody.jsonString (Json.obj [("status", Json.str s)])) st env).result)) ∧
    (∀ b id st env, (MongoDBAPI.deleteUser b id st env).result =
      Except.map (fun _ => ())
        ((specAdapter b ("/users/" ++ id) (some "DELETE") RequestBody.none st env).result)) := by
  refine ⟨fun _ _ _ _ => rfl, fun _ _ _ _ => rfl, fun _ _ _ _ => rfl, fun _ _ _ _ _ => rfl,
    fun _ _ _ => rfl, fun _ _ _ _ => rfl, fun _ _ _ _ _ => rfl, ?_, ?_, ?_, ?_⟩
  · intro b id st env
    simp only [MongoDBAPI.deleteJob, specAdapter]
    split <;> rename_i heq <;> rw [heq] <;> rfl
  · intro b id st env
    simp only [MongoDBAPI.claimJob, specAdapter]
    split <;> rename_i heq <;> rw [heq] <;> rfl
  · intro b id s st env
    simp only [MongoDBAPI.updateJobStatus, specAdapter]
    split <;> rename_i heq <;> rw [heq] <;> rfl
  · intro b id st env
    simp only [MongoDBAPI.deleteUser, specAdapter]
    split <;> rename_i heq <;> rw [heq] <;> rfl

/-- C7 (confirmed): after logout no token is stored: the authToken entry
is removed, no HTTP request is issued, and the promise always resolves. -/
theorem C7_logout_clears :
    (∀ st, (MongoDBAPI.logout st).storage = localStorage.removeItem st "authToken") ∧
    (∀ st, localStorage.getItem (MongoDBAPI.logout st).storage "authToken" = none) ∧
    (∀ st, (MongoDBAPI.logout st).trace = []) ∧
    (∀ st, (MongoDBAPI.logout st).result = .ok ()) :=
  ⟨fun _ => rfl, fun st => getItem_removeItem_self st "authToken",
   fun _ => rfl, fun _ => rfl⟩

/-- C8 (confirmed): the default headers always include the JSON content
type, and every method going through the generic helper sends exactly those
default headers on its single request. -/
theorem C8_content_type :
    (∀ st, ("Content-Type", "application/json") ∈ MongoDBAPI.jsonHeaders st) ∧
    (∀ b e p st env, (MongoDBAPI.login b e p st env).trace.map Request.headers =
      [MongoDBAPI.jsonHeaders st]) ∧
    (∀ b d st env, (MongoDBAPI.registerUser b d st env).trace.map Request.headers =
      [MongoDBAPI.jsonHeaders st]) ∧
    (∀ b st env, (MongoDBAPI.getCurrentUser b st env).trace.map Request.headers =
      [MongoDBAPI.jsonHeaders st]) ∧
    (∀ b f st env, (MongoDBAPI.getJobs b f st env).trace.map Request.headers =
      [MongoDBAPI.jsonHeaders st]) ∧
    (∀ b id st env, (MongoDBAPI.getJob b id st env).trace.map Request.headers =
      [MongoDBAPI.jsonHeaders st]) ∧
    (∀ b d st env, (MongoDBAPI.createJob b d st env).trace.map Request.headers =
      [MongoDBAPI.jsonHeaders st]) ∧
    (∀ b id d st env, (MongoDBAPI.updateJob b id d st env).trace.map Request.headers =
      [MongoDBAPI.jsonHeaders st]) ∧
    (∀ b id st env, (MongoDBAPI.deleteJob b id st env).trace.map Request.headers =
      [MongoDBAPI.jsonHeaders st]) ∧
    (∀ b id st env, (MongoDBAPI.claimJob b id st env).trace.map Request.headers =
      [MongoDBAPI.jsonHeaders st]) ∧
    (∀ b id s st env, (MongoDBAPI.updateJobStatus b id s st env).trace.map Request.headers =
      [MongoDBAPI.jsonHeaders st]) ∧
    (∀ b st env, (MongoDBAPI.getUsers b st env).trace.map Request.headers =
      [MongoDBAPI.jsonHeaders st]) ∧
    (∀ b d st env, (MongoDBAPI.createUser b d st env).trace.map Request.headers =
      [MongoDBAPI.jsonHeaders st]) ∧
    (∀ b id d st env, (MongoDBAPI.updateUser b id d st env).trace.map Request.headers =
      [MongoDBAPI.jsonHeaders st]) ∧
    (∀ b id st env, (MongoDBAPI.deleteUser b id st env).trace.map Request.headers =
      [MongoDBAPI.jsonHeaders st]) := by
  refine ⟨?_, ?_, ?_, ?_, ?_, ?_, ?_, ?_, ?_, ?_, ?_, ?_, ?_, ?_, ?_⟩
  · intro st
    unfold MongoDBAPI.jsonHeaders
    cases h : localStorage.getItem st "authToken"
    · simp
    · rename_i token
      by_cases ht : token = "" <;> simp [ht]
  · intro b e p st env
    rw [login_trace]
    rfl
  · intro b d st env
    rw [registerUser_trace]
    rfl
  · intro b st env
    rw [getCurrentUser_trace]
    rfl
  · intro b f st env
    rw [getJobs_trace]
    rfl
  · intro b id st env
    rw [getJob_trace]
    rfl
  · intro b d st env
    rw [createJob_trace]
    rfl
  · intro b id d st env
    rw [updateJob_trace]
    rfl
  · intro b id st env
    rw [deleteJob_trace]
    rfl
  · intro b id st env
    rw [claimJob_trace]
    rfl
  · intro b id s st env
    rw [updateJobStatus_trace]
    rfl
  · intro b st env
    rw [getUsers_trace]
    rfl
  · intro b d st env
    rw [createUser_trace]
    rfl
  · intro b id d st env
    rw [updateUser_trace]
    rfl
  · intro b id st env
    rw [deleteUser_trace]
    rfl

/-- C9 (confirmed): `getCurrentUser` never rejects: it resolves with the
decoded user on a parsed success response and with null on a non-success
response or an unparseable success body. -/
theorem C9_getCurrentUser_total :
    (∀ b st env, ∃ o, (MongoDBAPI.getCurrentUser b st env).result = .ok o) ∧
    (∀ b st env j,
      (env (MongoDBAPI.builtRequest b "/users/me" {} st)).ok = true →
      (env (MongoDBAPI.builtRequest b "/users/me" {} st)).body = .ok j →
      (MongoDBAPI.getCurrentUser b st env).result = .ok (some j)) ∧
    (∀ b st env, (env (MongoDBAPI.builtRequest b "/users/me" {} st)).ok = false →
      (MongoDBAPI.getCurrentUser b st env).result = .ok none) ∧
    (∀ b st env u,
      (env (MongoDBAPI.builtRequest b "/users/me" {} st)).ok = true →
      (env (MongoDBAPI.builtRequest b "/users/me" {} st)).body = .error u →
      (MongoDBAPI.getCurrentUser b st env).result = .ok none) := by
  refine ⟨?_, ?_, ?_, ?_⟩
  · intro b st env
    simp only [MongoDBAPI.getCurrentUser]
    split
    · exact ⟨_, rfl⟩
    · exact ⟨none, rfl⟩
  · intro b st env j hok hbody
    have hres : (MongoDBAPI.request b "/users/me" {} st env).result = .ok j := by
      rw [request_result, if_pos hok, hbody]
    simp only [MongoDBAPI.getCurrentUser, hres]
  · intro b st env h
    have hres : (MongoDBAPI.request b "/users/me" {} st env).result =
        .error (.thrown (MongoDBAPI.errorMessageOf
          (env (MongoDBAPI.builtRequest b "/users/me" {} st)).body)) := by
      rw [request_result, if_neg (by simp [h])]
    simp only [MongoDBAPI.getCurrentUser, hres]
  · intro b st env u hok hbody
    have hres : (MongoDBAPI.request b "/users/me" {} st env).result =
        .error .jsonParseError := by
      rw [request_result, if_pos hok, hbody]
    simp only [MongoDBAPI.getCurrentUser, hres]

/-- C9 witness: `getCurrentUser` at concrete backends: a parsed success
resolves the decoded object, a failing backend resolves null. -/
theorem C9_getCurrentUser_total_witness :
    (MongoDBAPI.getCurrentUser "" [] envLoginSample).result =
      .ok (some (Json.obj [("id", Json.str "1"), ("name", Json.str "n"),
        ("email", Json.str "e"), ("role", Json.str "admin"), ("token", Json.str "T")])) ∧
    (MongoDBAPI.getCurrentUser "" [] envFailBoom).result = .ok none :=
  ⟨C9_getCurrentUser_total.2.1 "" [] envLoginSample
      (Json.obj [("id", Json.str "1"), ("name", Json.str "n"),
        ("email", Json.str "e"), ("role", Json.str "admin"), ("token", Json.str "T")])
      rfl rfl,
   C9_getCurrentUser_total.2.2.1 "" [] envFailBoom rfl⟩

/-- C10 (confirmed): `createUser` posts to the same registration endpoint
as `registerUser` but leaves browser storage exactly as it was. -/
theorem C10_createUser_no_store :
    (∀ b d st env, (MongoDBAPI.createUser b d st env).storage = st) ∧
    (∀ b d st env k, localStorage.getItem (MongoDBAPI.createUser b d st env).storage k =
      localStorage.getItem st k) ∧
    (∀ b d st env, (MongoDBAPI.createUser b d st env).trace =
      [{ url := b ++ "/users/register", method := "POST",
         headers := MongoDBAPI.jsonHeaders st,
         body := RequestBody.jsonString (CreateUserData.toJson d) }]) ∧
    (∀ b d st env, (MongoDBAPI.registerUser b d st env).trace =
      (MongoDBAPI.createUser b d st env).trace) := by
  refine ⟨fun _ _ _ _ => rfl, fun _ _ _ _ _ => rfl, createUser_trace, ?_⟩
  intro b d st env
  rw [registerUser_trace, createUser_trace]
